import Mathlib

/-!
Verification of the KAFKA-E-commerce coordination core and dashboard.

The saga orchestrator, retry policy, schema validation and backoff policy
are modelled from the specification (the backend services are not part of
the dashboard sources); the dashboard functions (apiCall, the inventory
page handlers, the refund request builder) are shallowly embedded from the
React sources under src/frontend-dashboard and the unnamed page sources.
-/

namespace KafkaEcommerce

/-- Modelled from the spec: the saga states of section 3. -/
inductive SagaState where
  | CREATED
  | VALIDATING
  | PAYMENT_PENDING
  | PAYMENT_CONFIRMED
  | INVENTORY_PENDING
  | INVENTORY_RESERVED
  | COMPLETING
  | COMPLETED
  | COMPENSATING
  | FAILED
deriving DecidableEq, Repr

/-- Modelled from the spec: the trigger event types of the section 4.2 table. -/
inductive EventType where
  | OrderValidated
  | OrderInvalid
  | PaymentCompleted
  | PaymentFailed
  | InventoryReserved
  | InventoryInsufficient
  | PaymentRefunded
  | NotificationSent
deriving DecidableEq, Repr

/-- Modelled from the spec: the commands the orchestrator emits (section 4.2). -/
inductive Command where
  | ValidateOrder
  | RequestPayment
  | OrderFailed
  | ReserveInventory
  | SendConfirmation
  | RefundPayment
deriving DecidableEq, Repr

/-- Modelled from the spec: step status values of section 3. -/
inductive StepStatus where
  | PENDING
  | IN_PROGRESS
  | SUCCEEDED
  | FAILED
  | COMPENSATED
deriving DecidableEq, Repr

/-- Modelled from the spec: a step record of the saga (section 3), keeping
the fields the claims mention. -/
structure StepRecord where
  step_name : String
  status : StepStatus
  attempt_count : Nat
deriving DecidableEq, Repr

/-- Modelled from the spec: an order saga instance (section 3), with the
idempotency store of applied (order_id, event_id) pairs attached (section 4.5). -/
structure Saga where
  order_id : String
  state : SagaState
  steps : List StepRecord
  applied : List (String × String)
deriving DecidableEq, Repr

/-- Modelled from the spec: a validated event envelope (section 3), keeping
the fields the orchestrator consults. -/
structure Event where
  event_id : String
  order_id : String
  type : EventType
deriving DecidableEq, Repr

/-- Modelled from the spec: the transition table of section 4.2, looked up by
(current_state, event_type); the COMPLETING to COMPLETED row emits no command. -/
def transition : SagaState → EventType → Option (SagaState × Option Command)
  | .VALIDATING, .OrderValidated => some (.PAYMENT_PENDING, some .RequestPayment)
  | .VALIDATING, .OrderInvalid => some (.FAILED, some .OrderFailed)
  | .PAYMENT_PENDING, .PaymentCompleted => some (.INVENTORY_PENDING, some .ReserveInventory)
  | .PAYMENT_PENDING, .PaymentFailed => some (.FAILED, some .OrderFailed)
  | .INVENTORY_PENDING, .InventoryReserved => some (.COMPLETING, some .SendConfirmation)
  | .INVENTORY_PENDING, .InventoryInsufficient => some (.COMPENSATING, some .RefundPayment)
  | .COMPENSATING, .PaymentRefunded => some (.FAILED, some .OrderFailed)
  | .COMPLETING, .NotificationSent => some (.COMPLETED, none)
  | _, _ => none

/-- Printable name of an event type, used for the step record appended on a
transition. -/
def eventTypeName : EventType → String
  | .OrderValidated => "OrderValidated"
  | .OrderInvalid => "OrderInvalid"
  | .PaymentCompleted => "PaymentCompleted"
  | .PaymentFailed => "PaymentFailed"
  | .InventoryReserved => "InventoryReserved"
  | .InventoryInsufficient => "InventoryInsufficient"
  | .PaymentRefunded => "PaymentRefunded"
  | .NotificationSent => "NotificationSent"

/-- Modelled from the spec: applying one delivered event to a saga
(sections 4.2 and 4.5). The idempotency store is consulted first: an already
applied (order_id, event_id) pair is acknowledged with no state change and no
command. Otherwise the transition table is looked up by
(current_state, event_type); a miss is acknowledged and discarded as a stale or
duplicate delivery. On a hit the saga moves to the next state, a step record is
appended, the pair is recorded as applied, and the command of the row is
emitted. -/
def applyEvent (s : Saga) (e : Event) : Saga × List Command :=
  if (e.order_id, e.event_id) ∈ s.applied then (s, [])
  else
    match transition s.state e.type with
    | none => (s, [])
    | some (next, cmd) =>
        ({ s with
            state := next
            steps := s.steps ++ [⟨eventTypeName e.type, .SUCCEEDED, 1⟩]
            applied := s.applied ++ [(e.order_id, e.event_id)] },
         cmd.toList)

/-- Modelled from the spec: processing a list of delivered events serially
(per-order single-writer processing, section 5), accumulating emitted commands. -/
def run (s : Saga) : List Event → Saga × List Command
  | [] => (s, [])
  | e :: es =>
      let r := applyEvent s e
      let r2 := run r.1 es
      (r2.1, r.2 ++ r2.2)

/-- Modelled from the spec: a freshly started saga, right after the saga start
row of the table (CREATED to VALIDATING). -/
def startSaga (oid : String) : Saga :=
  { order_id := oid, state := .VALIDATING, steps := [], applied := [] }

/-- Helper: an already applied (order_id, event_id) pair makes applyEvent a
no-op. -/
lemma applyEvent_noop_of_mem (s : Saga) (e : Event)
    (hmem : (e.order_id, e.event_id) ∈ s.applied) : applyEvent s e = (s, []) := by
  unfold applyEvent
  simp [hmem]

/-- Helper: a (current_state, event_type) pair that matches no transition row
makes applyEvent a no-op. -/
lemma applyEvent_noop_of_none (s : Saga) (e : Event)
    (ht : transition s.state e.type = none) : applyEvent s e = (s, []) := by
  unfold applyEvent
  by_cases hmem : (e.order_id, e.event_id) ∈ s.applied
  · simp [hmem]
  · simp [hmem, ht]

/-- C1: every event application either follows a row of the transition table
looked up by (current_state, event_type), or — when the pair matches no row —
leaves the saga entirely unchanged and emits nothing (the event is acknowledged
and discarded). -/
theorem saga_transitions_follow_table :
    (∀ (s : Saga) (e : Event),
        applyEvent s e = (s, []) ∨
        ∃ cmd, transition s.state e.type = some ((applyEvent s e).1.state, cmd) ∧
          (applyEvent s e).2 = cmd.toList) ∧
    (∀ (s : Saga) (e : Event),
        transition s.state e.type = none → applyEvent s e = (s, [])) := by
  constructor
  · intro s e
    by_cases hmem : (e.order_id, e.event_id) ∈ s.applied
    · exact Or.inl (applyEvent_noop_of_mem s e hmem)
    · cases ht : transition s.state e.type with
      | none => exact Or.inl (applyEvent_noop_of_none s e ht)
      | some p =>
          right
          refine ⟨p.2, ?_, ?_⟩ <;> unfold applyEvent <;> simp [hmem, ht]
  · exact applyEvent_noop_of_none

/-- Witness for C1 at a concrete input: a COMPLETED saga receiving a
PaymentCompleted event matches no row and is left unchanged. -/
theorem saga_transitions_follow_table_witness :
    transition SagaState.COMPLETED EventType.PaymentCompleted = none ∧
    applyEvent { order_id := "O1", state := .COMPLETED, steps := [], applied := [] }
        { event_id := "E9", order_id := "O1", type := .PaymentCompleted } =
      ({ order_id := "O1", state := .COMPLETED, steps := [], applied := [] }, []) := by
  refine ⟨by decide, ?_⟩
  exact saga_transitions_follow_table.2
    { order_id := "O1", state := .COMPLETED, steps := [], applied := [] }
    { event_id := "E9", order_id := "O1", type := .PaymentCompleted }
    (by decide)

/-- Command count in an emitted command list, by structural recursion. -/
def countCmd (c : Command) : List Command → Nat
  | [] => 0
  | x :: xs => (if x = c then 1 else 0) + countCmd c xs

/-- Scenario D events: an OrderValidated followed by the same PaymentCompleted
envelope delivered twice (same event_id). -/
def scenarioD : List Event :=
  [{ event_id := "E1", order_id := "O1", type := .OrderValidated },
   { event_id := "E2", order_id := "O1", type := .PaymentCompleted },
   { event_id := "E2", order_id := "O1", type := .PaymentCompleted }]

/-- C2: event application is idempotent. An event whose (order_id, event_id)
pair is already recorded as applied leaves the saga unchanged and emits no
command; in particular the same PaymentCompleted envelope delivered twice in
Scenario D yields exactly one ReserveInventory command. -/
theorem applied_event_is_noop :
    (∀ (s : Saga) (e : Event),
        (e.order_id, e.event_id) ∈ s.applied → applyEvent s e = (s, [])) ∧
    countCmd .ReserveInventory (run (startSaga "O1") scenarioD).2 = 1 := by
  constructor
  · exact applyEvent_noop_of_mem
  · decide

/-- Witness for C2 at a concrete input: a saga that already recorded the pair
("O1", "E2") ignores a redelivered PaymentCompleted with that event_id. -/
theorem applied_event_is_noop_witness :
    ("O1", "E2") ∈
        ({ order_id := "O1", state := .INVENTORY_PENDING, steps := [],
           applied := [("O1", "E2")] } : Saga).applied ∧
    applyEvent
        { order_id := "O1", state := .INVENTORY_PENDING, steps := [],
          applied := [("O1", "E2")] }
        { event_id := "E2", order_id := "O1", type := .PaymentCompleted } =
      ({ order_id := "O1", state := .INVENTORY_PENDING, steps := [],
         applied := [("O1", "E2")] }, []) := by
  refine ⟨by decide, ?_⟩
  exact applied_event_is_noop.1
    { order_id := "O1", state := .INVENTORY_PENDING, steps := [],
      applied := [("O1", "E2")] }
    { event_id := "E2", order_id := "O1", type := .PaymentCompleted }
    (by decide)

/-- C3: terminal states are absorbing. Once a saga is COMPLETED or FAILED, any
further event leaves the saga — its state and its step records — unchanged and
emits nothing. -/
theorem terminal_states_absorbing :
    ∀ (s : Saga) (e : Event),
      (s.state = .COMPLETED ∨ s.state = .FAILED) → applyEvent s e = (s, []) := by
  intro s e h
  have ht : transition s.state e.type = none := by
    rcases h with h | h <;> rw [h] <;> cases e.type <;> rfl
  exact applyEvent_noop_of_none s e ht

/-- Witness for C3 at a concrete input: a FAILED saga ignores a late
InventoryReserved event. -/
theorem terminal_states_absorbing_witness :
    (({ order_id := "O2", state := .FAILED, steps := [⟨"PaymentFailed", .SUCCEEDED, 1⟩],
        applied := [] } : Saga).state = SagaState.COMPLETED ∨
      ({ order_id := "O2", state := .FAILED, steps := [⟨"PaymentFailed", .SUCCEEDED, 1⟩],
         applied := [] } : Saga).state = SagaState.FAILED) ∧
    applyEvent
        { order_id := "O2", state := .FAILED, steps := [⟨"PaymentFailed", .SUCCEEDED, 1⟩],
          applied := [] }
        { event_id := "E7", order_id := "O2", type := .InventoryReserved } =
      ({ order_id := "O2", state := .FAILED, steps := [⟨"PaymentFailed", .SUCCEEDED, 1⟩],
         applied := [] }, []) := by
  refine ⟨Or.inr rfl, ?_⟩
  exact terminal_states_absorbing
    { order_id := "O2", state := .FAILED, steps := [⟨"PaymentFailed", .SUCCEEDED, 1⟩],
      applied := [] }
    { event_id := "E7", order_id := "O2", type := .InventoryReserved }
    (Or.inr rfl)

/-- Modelled from the spec: the action the retry policy of section 4.3 takes on
a step failure — schedule a retry, or escalate and trigger compensation, or
nothing (the step is already FAILED, no further retry is ever attempted). -/
inductive RetryAction where
  | retry
  | compensate
  | nothing
deriving DecidableEq, Repr

/-- Modelled from the spec: a step as seen by the retry policy, carrying its
status and attempt_count. -/
structure RetryStep where
  status : StepStatus
  attempt_count : Nat
deriving DecidableEq, Repr

/-- Modelled from the spec: handling one failure of a step (sections 4.2 and
4.3). A step that is already FAILED is never retried again. Otherwise, while
attempt_count is below max_retries the failure schedules a retry and
attempt_count increments; exceeding max_retries escalates the step to FAILED
and triggers compensation instead of a further retry. -/
def onStepFailure (maxRetries : Nat) (st : RetryStep) : RetryStep × RetryAction :=
  if st.status = .FAILED then (st, .nothing)
  else if st.attempt_count < maxRetries then
    ({ st with status := .IN_PROGRESS, attempt_count := st.attempt_count + 1 }, .retry)
  else
    ({ st with status := .FAILED }, .compensate)

/-- Modelled from the spec: a step before its first failure. -/
def freshStep : RetryStep :=
  { status := .IN_PROGRESS, attempt_count := 0 }

/-- Iterating the failure handler n times. -/
def failTimes (maxRetries n : Nat) (st : RetryStep) : RetryStep :=
  (fun x => (onStepFailure maxRetries x).1)^[n] st

/-- Helper: the state of a fresh step after k failures with k at most
max_retries — still not FAILED, attempt_count = k. -/
lemma failTimes_le (m : Nat) :
    ∀ k, k ≤ m → failTimes m k freshStep = ⟨.IN_PROGRESS, k⟩ := by
  intro k
  induction k with
  | zero => intro _; rfl
  | succ n ih =>
      intro hk
      have hn : n ≤ m := Nat.le_of_succ_le hk
      have hlt : n < m := hk
      unfold failTimes at ih ⊢
      rw [Function.iterate_succ_apply', ih hn]
      unfold onStepFailure
      simp [hlt]

/-- C4: the retry cap. On every failure of a live step below the cap,
attempt_count increments and a retry is scheduled; a fresh step that fails
max_retries + 1 times ends FAILED, with the last failure triggering
compensation instead of a retry; and a FAILED step is never retried again. -/
theorem retry_cap (maxRetries : Nat) :
    (∀ st : RetryStep, st.status ≠ .FAILED → st.attempt_count < maxRetries →
        onStepFailure maxRetries st =
          ({ st with status := .IN_PROGRESS, attempt_count := st.attempt_count + 1 },
           .retry)) ∧
    (failTimes maxRetries (maxRetries + 1) freshStep).status = .FAILED ∧
    (onStepFailure maxRetries (failTimes maxRetries maxRetries freshStep)).2 =
      .compensate ∧
    (∀ st : RetryStep, st.status = .FAILED →
        onStepFailure maxRetries st = (st, .nothing)) := by
  have hm := failTimes_le maxRetries maxRetries (Nat.le_refl _)
  refine ⟨?_, ?_, ?_, ?_⟩
  · intro st hs hlt
    unfold onStepFailure
    simp [hs, hlt]
  · unfold failTimes
    rw [Function.iterate_succ_apply']
    have : (fun x => (onStepFailure maxRetries x).1)^[maxRetries] freshStep =
        ⟨.IN_PROGRESS, maxRetries⟩ := hm
    rw [this]
    unfold onStepFailure
    simp
  · rw [hm]
    unfold onStepFailure
    simp
  · intro st hs
    unfold onStepFailure
    simp [hs]

/-- Witness for C4 at the default max_retries = 3: the fourth failure leaves
the step FAILED, the first failure of a fresh step schedules a retry with
attempt_count 1, and a FAILED step gets no further retry. -/
theorem retry_cap_witness :
    (freshStep.status ≠ StepStatus.FAILED ∧ freshStep.attempt_count < 3 ∧
      onStepFailure 3 freshStep = (⟨.IN_PROGRESS, 1⟩, .retry)) ∧
    (failTimes 3 4 freshStep).status = StepStatus.FAILED ∧
    ((⟨.FAILED, 3⟩ : RetryStep).status = StepStatus.FAILED ∧
      onStepFailure 3 ⟨.FAILED, 3⟩ = (⟨.FAILED, 3⟩, .nothing)) := by
  refine ⟨⟨by decide, by decide, ?_⟩, ?_, by decide, ?_⟩
  · exact (retry_cap 3).1 freshStep (by decide) (by decide)
  · exact (retry_cap 3).2.1
  · exact (retry_cap 3).2.2.2 ⟨.FAILED, 3⟩ (by decide)

/-- Modelled from the spec: a raw inbound message before schema validation
(section 4.1); event_id, order_id and type may be missing on the wire. -/
structure RawMessage where
  event_id : Option String
  order_id : Option String
  type : Option String
  payload : String
deriving DecidableEq, Repr

/-- Modelled from the spec: the recognized event type names (section 4.2);
any other string is an unrecognized type. -/
def parseEventType : String → Option EventType
  | "OrderValidated" => some .OrderValidated
  | "OrderInvalid" => some .OrderInvalid
  | "PaymentCompleted" => some .PaymentCompleted
  | "PaymentFailed" => some .PaymentFailed
  | "InventoryReserved" => some .InventoryReserved
  | "InventoryInsufficient" => some .InventoryInsufficient
  | "PaymentRefunded" => some .PaymentRefunded
  | "NotificationSent" => some .NotificationSent
  | _ => none

/-- Modelled from the spec: dead letter failure reasons (sections 4.1 and 7). -/
inductive FailureReason where
  | SCHEMA_INVALID
  | RETRY_EXHAUSTED
  | COMPENSATION_FAILED
deriving DecidableEq, Repr

/-- Modelled from the spec: a dead letter entry preserving the original raw
payload plus the failure reason (section 3). -/
structure DeadLetterEntry where
  original : RawMessage
  reason : FailureReason
deriving DecidableEq, Repr

/-- Modelled from the spec: schema validation of section 4.1. Validation fails
closed: a missing event_id, missing order_id, or missing or unrecognized type
yields a dead letter entry with reason SCHEMA_INVALID; otherwise the validated
envelope is produced. -/
def validateEnvelope (m : RawMessage) : Except DeadLetterEntry Event :=
  match m.event_id, m.order_id, m.type.bind parseEventType with
  | some e, some o, some t => .ok { event_id := e, order_id := o, type := t }
  | _, _, _ => .error { original := m, reason := .SCHEMA_INVALID }

/-- Modelled from the spec: the possible outcomes of ingesting one raw message
— routed to the Dead Letter Router, processed against the saga, or scheduled
for a retried redelivery after a backoff delay. -/
inductive IngestOutcome where
  | deadLettered (entry : DeadLetterEntry)
  | processed (saga : Saga) (commands : List Command)
  | retried (saga : Saga) (delay : Nat)
deriving DecidableEq, Repr

/-- Modelled from the spec: ingesting one raw inbound message (section 4.1).
The message is validated before any business logic runs; a schema failure is
routed directly to the Dead Letter Router without retry, and only a valid
envelope reaches the saga. -/
def ingest (s : Saga) (m : RawMessage) : IngestOutcome :=
  match validateEnvelope m with
  | .error d => .deadLettered d
  | .ok e =>
      let r := applyEvent s e
      .processed r.1 r.2

/-- C5: schema validation fails closed. Every inbound message missing event_id
or order_id, or whose type is missing or unrecognized, is routed directly to
the Dead Letter Router with reason SCHEMA_INVALID — the outcome carries no
saga mutation, no command and no retry. -/
theorem schema_invalid_dead_letters :
    ∀ (s : Saga) (m : RawMessage),
      (m.event_id = none ∨ m.order_id = none ∨ m.type.bind parseEventType = none) →
      ingest s m = .deadLettered { original := m, reason := .SCHEMA_INVALID } := by
  intro s m h
  unfold ingest validateEnvelope
  rcases hE : m.event_id with _ | e <;> rcases hO : m.order_id with _ | o <;>
    rcases hT : m.type.bind parseEventType with _ | t <;> simp_all

/-- Witness for C5 at a concrete input (Scenario E): a malformed envelope
missing order_id is dead lettered with reason SCHEMA_INVALID. -/
theorem schema_invalid_dead_letters_witness :
    (({ event_id := some "E1", order_id := none, type := some "PaymentCompleted",
        payload := "p" } : RawMessage).event_id = none ∨
      ({ event_id := some "E1", order_id := none, type := some "PaymentCompleted",
         payload := "p" } : RawMessage).order_id = none ∨
      ({ event_id := some "E1", order_id := none, type := some "PaymentCompleted",
         payload := "p" } : RawMessage).type.bind parseEventType = none) ∧
    ingest (startSaga "O1")
        { event_id := some "E1", order_id := none, type := some "PaymentCompleted",
          payload := "p" } =
      .deadLettered
        { original := { event_id := some "E1", order_id := none,
                        type := some "PaymentCompleted", payload := "p" },
          reason := .SCHEMA_INVALID } := by
  refine ⟨Or.inr (Or.inl rfl), ?_⟩
  exact schema_invalid_dead_letters (startSaga "O1")
    { event_id := some "E1", order_id := none, type := some "PaymentCompleted",
      payload := "p" }
    (Or.inr (Or.inl rfl))

/-- Modelled from the spec: the exponential backoff formula of section 4.3 —
base_delay * 2 ^ attempt, capped at max_delay. -/
def backoffDelay (baseDelay maxDelay attempt : Nat) : Nat :=
  min (baseDelay * 2 ^ attempt) maxDelay

/-- Modelled from the spec: the scheduled redelivery delay with a jitter of at
most twenty percent of the capped backoff value, drawn from a randomness
source rand — the result lies in the closed band of width two times d / 5
centered at the capped delay d. -/
def jitteredDelay (baseDelay maxDelay attempt rand : Nat) : Nat :=
  backoffDelay baseDelay maxDelay attempt - backoffDelay baseDelay maxDelay attempt / 5 +
    rand % (2 * (backoffDelay baseDelay maxDelay attempt / 5) + 1)

/-- C6: the backoff schedule. For every retry attempt n, the capped delay
equals base_delay * 2 ^ n capped at max_delay, and for every draw of the
randomness source the scheduled redelivery delay lies within plus or minus
twenty percent (d / 5 in integer arithmetic) of that capped value. -/
theorem backoff_schedule (baseDelay maxDelay n rand : Nat) :
    backoffDelay baseDelay maxDelay n = min (baseDelay * 2 ^ n) maxDelay ∧
    backoffDelay baseDelay maxDelay n - backoffDelay baseDelay maxDelay n / 5 ≤
      jitteredDelay baseDelay maxDelay n rand ∧
    jitteredDelay baseDelay maxDelay n rand ≤
      backoffDelay baseDelay maxDelay n + backoffDelay baseDelay maxDelay n / 5 := by
  refine ⟨rfl, ?_, ?_⟩
  · unfold jitteredDelay
    exact Nat.le_add_right _ _
  · unfold jitteredDelay
    have hj : backoffDelay baseDelay maxDelay n / 5 ≤ backoffDelay baseDelay maxDelay n :=
      Nat.div_le_self _ _
    have hr : rand % (2 * (backoffDelay baseDelay maxDelay n / 5) + 1) ≤
        2 * (backoffDelay baseDelay maxDelay n / 5) :=
      Nat.le_of_lt_succ (Nat.mod_lt _ (Nat.succ_pos _))
    omega

/-- Helper: countCmd distributes over list append. -/
lemma countCmd_append (c : Command) (a b : List Command) :
    countCmd c (a ++ b) = countCmd c a + countCmd c b := by
  induction a with
  | nil => simp [countCmd]
  | cons x xs ih => simp [countCmd, ih]; omega

/-- Helper: one event application preserves the compensation-count invariant —
emitted RefundPayment commands never outnumber emitted ReserveInventory
commands, strictly so whenever the saga sits in INVENTORY_PENDING. -/
lemma applyEvent_count_inv (s : Saga) (e : Event) (r f : Nat)
    (h1 : f ≤ r) (h2 : s.state = .INVENTORY_PENDING → f < r) :
    f + countCmd .RefundPayment (applyEvent s e).2 ≤
      r + countCmd .ReserveInventory (applyEvent s e).2 ∧
    ((applyEvent s e).1.state = .INVENTORY_PENDING →
      f + countCmd .RefundPayment (applyEvent s e).2 <
        r + countCmd .ReserveInventory (applyEvent s e).2) := by
  by_cases hmem : (e.order_id, e.event_id) ∈ s.applied
  · rw [applyEvent_noop_of_mem s e hmem]
    exact ⟨by simpa [countCmd] using h1, fun hst => by simpa [countCmd] using h2 hst⟩
  · unfold applyEvent
    cases hs : s.state <;> cases he : e.type <;>
      simp_all [transition, countCmd, Option.toList] <;> omega

/-- Helper: a serial run from any saga satisfying the count invariant keeps
RefundPayment commands bounded by ReserveInventory commands. -/
lemma run_count_inv :
    ∀ (es : List Event) (s : Saga) (r f : Nat),
      f ≤ r → (s.state = .INVENTORY_PENDING → f < r) →
      f + countCmd .RefundPayment (run s es).2 ≤
        r + countCmd .ReserveInventory (run s es).2 := by
  intro es
  induction es with
  | nil => intro s r f h1 _; simpa [run, countCmd] using h1
  | cons e es ih =>
      intro s r f h1 h2
      have hstep := applyEvent_count_inv s e r f h1 h2
      have hrec := ih (applyEvent s e).1
        (r + countCmd .ReserveInventory (applyEvent s e).2)
        (f + countCmd .RefundPayment (applyEvent s e).2)
        hstep.1 hstep.2
      show f + countCmd .RefundPayment (run s (e :: es)).2 ≤
        r + countCmd .ReserveInventory (run s (e :: es)).2
      simp only [run, countCmd_append]
      omega

/-- C7: compensation ordering. For every order and every per-order serial
delivery sequence — in particular any reordering or duplication the bus could
produce for that order_id — the run never emits more RefundPayment
compensations than ReserveInventory forward commands, so at every point of the
emitted command stream each compensation is preceded by its forward step. -/
theorem no_compensation_before_forward_step :
    ∀ (oid : String) (events : List Event),
      countCmd .RefundPayment (run (startSaga oid) events).2 ≤
        countCmd .ReserveInventory (run (startSaga oid) events).2 := by
  intro oid events
  have h := run_count_inv events (startSaga oid) 0 0 (Nat.le_refl 0)
    (fun hst => by simp [startSaga] at hst)
  simpa using h

/-!
Dashboard embeddings, from the React sources. apiCall and the per-service
API objects are embedded from src/frontend-dashboard/src/context/ServiceContext.js
(the unnamed Railway variant differs only in base URLs and health checks); the
inventory page handlers from the unnamed inventory page source; the refund
handler from src/frontend-dashboard/src/pages/PaymentService.js.
-/

/-- The service keys of the SERVICES map in ServiceContext.js. -/
inductive Service where
  | order
  | payment
  | inventory
  | notification
  | orchestrator
  | monitoring
deriving DecidableEq, Repr

/-- JavaScript truthiness fallback on an optional string: a missing value or
the empty string falls through to the default (the JS a || b on strings). -/
def jsOrStr (a : Option String) (b : String) : String :=
  match a with
  | some v => if v = "" then b else v
  | none => b

/-- The error.response object an axios failure may carry: its HTTP status and
the optional error field of its JSON data. -/
structure ErrorResponse where
  status : Nat
  dataError : Option String
deriving DecidableEq, Repr

/-- The outcome of the awaited axios request inside apiCall: a response with
data and status, or a thrown error with an optional response and an optional
message. -/
inductive RequestOutcome where
  | ok (data : String) (status : Nat)
  | err (response : Option ErrorResponse) (message : Option String)
deriving DecidableEq, Repr

/-- The object apiCall resolves to: success flag, data on success, error text
on failure, and the HTTP status. -/
structure ApiResult where
  success : Bool
  data : Option String
  error : Option String
  status : Nat
deriving DecidableEq, Repr

/-- Embedded from apiCall in ServiceContext.js: on a response it resolves to
success true with the response data and status; on a thrown error it resolves
to success false with error = error.response?.data?.error || error.message ||
"Unknown error" and status = error.response?.status || 500 (JS truthiness, so
a missing response — and a zero status — default to 500). -/
def apiCall (service : Service) (endpoint method : String) (data : Option String)
    (outcome : RequestOutcome) : ApiResult :=
  match outcome with
  | .ok d st => { success := true, data := some d, error := none, status := st }
  | .err resp msg =>
      { success := false
        data := none
        error := some (jsOrStr (resp.bind ErrorResponse.dataError)
          (jsOrStr msg "Unknown error"))
        status :=
          match resp with
          | some r => if r.status = 0 then 500 else r.status
          | none => 500 }

/-- C8: apiCall is total over request outcomes. For every service, endpoint,
method and payload, the resolved value is either success true carrying the
response data and status, or success false carrying an error text that falls
back from error.response data to the error message to "Unknown error", with
status taken from the response and defaulting to 500 when no response is
attached — it never rejects. -/
theorem apiCall_total :
    ∀ (service : Service) (endpoint method : String) (data : Option String)
      (o : RequestOutcome),
      (∃ d st, o = .ok d st ∧
        apiCall service endpoint method data o =
          { success := true, data := some d, error := none, status := st }) ∨
      (∃ resp msg, o = .err resp msg ∧
        apiCall service endpoint method data o =
          { success := false, data := none
            error := some (jsOrStr (resp.bind ErrorResponse.dataError)
              (jsOrStr msg "Unknown error"))
            status :=
              match resp with
              | some r => if r.status = 0 then 500 else r.status
              | none => 500 }) := by
  intro service endpoint method data o
  cases o with
  | ok d st => exact Or.inl ⟨d, st, rfl, rfl⟩
  | err resp msg => exact Or.inr ⟨resp, msg, rfl, rfl⟩

/-- The member names the ServiceProvider defines on the inventoryService
object in ServiceContext.js. -/
def inventoryServiceMembers : List String :=
  ["getAllInventory", "getProductInventory", "updateInventory",
   "createReservation", "releaseReservation", "getMetrics"]

/-- Embedded from the inventoryService object in ServiceContext.js: looking up
a member by name yields the (method, endpoint) request it issues, or none when
the property is not defined on the object (a JS undefined). The arg parameter
stands for the id interpolated into the endpoint. -/
def inventoryMemberRequest (member arg : String) : Option (String × String) :=
  match member with
  | "getAllInventory" => some ("GET", "/inventory")
  | "getProductInventory" => some ("GET", "/inventory/" ++ arg)
  | "updateInventory" => some ("PUT", "/inventory/" ++ arg)
  | "createReservation" => some ("POST", "/reservations")
  | "releaseReservation" => some ("POST", "/reservations/" ++ arg ++ "/release")
  | "getMetrics" => some ("GET", "/metrics")
  | _ => none

/-- What an inventory page handler does after its input validation: bail out
with a toast, crash with a TypeError on an undefined member, or issue an HTTP
request. -/
inductive HandlerOutcome where
  | validationError
  | typeError (member : String)
  | request (method url : String)
deriving DecidableEq, Repr

/-- Embedded from handleGetProduct in the unnamed inventory page source: an
empty product id bails out with a toast; otherwise the handler invokes
inventoryService.getProduct, so the outcome depends on whether that member is
defined on the inventoryService object. -/
def handleGetProduct (productId : String) : HandlerOutcome :=
  if productId = "" then .validationError
  else
    match inventoryMemberRequest "getProduct" productId with
    | some r => .request r.1 r.2
    | none => .typeError "getProduct"

/-- Embedded from handleUpdateProduct in the unnamed inventory page source: an
empty product id or a negative quantity or price bails out with a toast;
otherwise the handler invokes inventoryService.updateProduct. -/
def handleUpdateProduct (productId : String) (quantity price : Int) : HandlerOutcome :=
  if productId = "" ∨ quantity < 0 ∨ price < 0 then .validationError
  else
    match inventoryMemberRequest "updateProduct" productId with
    | some r => .request r.1 r.2
    | none => .typeError "updateProduct"

/-- C9: the inventory page handlers call members the provider never defines.
getProduct and updateProduct are not among the inventoryService members, the
member lookup yields undefined for them, and hence for every non-empty product
id (and valid quantity and price) both handlers end in a TypeError instead of
issuing an HTTP request. -/
theorem inventory_handlers_hit_undefined_members :
    ("getProduct" ∉ inventoryServiceMembers ∧
      "updateProduct" ∉ inventoryServiceMembers) ∧
    (∀ arg, inventoryMemberRequest "getProduct" arg = none ∧
      inventoryMemberRequest "updateProduct" arg = none) ∧
    (∀ productId, productId ≠ "" →
      handleGetProduct productId = .typeError "getProduct") ∧
    (∀ (productId : String) (quantity price : Int), productId ≠ "" →
      0 ≤ quantity → 0 ≤ price →
      handleUpdateProduct productId quantity price = .typeError "updateProduct") := by
  refine ⟨⟨by decide, by decide⟩, fun arg => ⟨rfl, rfl⟩, ?_, ?_⟩
  · intro productId hne
    unfold handleGetProduct
    simp [hne, inventoryMemberRequest]
  · intro productId quantity price hne hq hp
    unfold handleUpdateProduct
    have : ¬(productId = "" ∨ quantity < 0 ∨ price < 0) := by
      push_neg
      exact ⟨hne, hq, hp⟩
    simp [this, inventoryMemberRequest]

/-- Witness for C9 at a concrete input: product id P1 with quantity 5 and
price 2 makes both handlers crash with a TypeError. -/
theorem inventory_handlers_hit_undefined_members_witness :
    ("P1" ≠ "" ∧ handleGetProduct "P1" = .typeError "getProduct") ∧
    ("P1" ≠ "" ∧ (0 : Int) ≤ 5 ∧ (0 : Int) ≤ 2 ∧
      handleUpdateProduct "P1" 5 2 = .typeError "updateProduct") := by
  refine ⟨⟨by decide, ?_⟩, by decide, by decide, by decide, ?_⟩
  · exact inventory_handlers_hit_undefined_members.2.2.1 "P1" (by decide)
  · exact inventory_handlers_hit_undefined_members.2.2.2 "P1" 5 2 (by decide)
      (by decide) (by decide)

/-- The refundData object the Payment page builds: a refund amount and a
reason text. -/
structure RefundData where
  amount : Int
  reason : String
deriving DecidableEq, Repr

/-- An HTTP request with a JSON object body whose top-level fields hold values
of type a — here the value passed for the reason field. -/
structure PostRequest (a : Type) where
  method : String
  url : String
  body : List (String × a)
deriving DecidableEq, Repr

/-- Embedded from paymentService.refundPayment in ServiceContext.js: it POSTs
to /payments/id/refund with body obtained by wrapping its second argument —
whatever it is — as the single top-level field named reason. -/
def refundPayment (a : Type) (paymentId : String) (reason : a) : PostRequest a :=
  { method := "POST"
    url := "/payments/" ++ paymentId ++ "/refund"
    body := [("reason", reason)] }

/-- Embedded from handleRefundPayment in PaymentService.js: an empty payment
id or a non-positive amount bails out; otherwise refundPayment is called with
the whole refundData object — amount plus reason text, the reason text
defaulting to Customer request — as its reason argument. -/
def handleRefundPayment (paymentId : String) (amount : Int) (reasonText : String) :
    Option (PostRequest RefundData) :=
  if paymentId = "" ∨ amount ≤ 0 then none
  else some (refundPayment RefundData paymentId
    { amount := amount, reason := jsOrStr (some reasonText) "Customer request" })

/-- C10: the refund amount is nested inside the reason field. For every
non-empty payment id and positive amount, the body POSTed to
/payments/id/refund has exactly one top-level field, named reason, holding the
whole refundData object with the amount inside it; no top-level amount field
exists. -/
theorem refund_amount_nested_in_reason :
    ∀ (paymentId : String) (amount : Int) (reasonText : String),
      paymentId ≠ "" → 0 < amount →
      handleRefundPayment paymentId amount reasonText =
        some { method := "POST"
               url := "/payments/" ++ paymentId ++ "/refund"
               body := [("reason",
                 { amount := amount
                   reason := jsOrStr (some reasonText) "Customer request" })] } ∧
      ∀ req, handleRefundPayment paymentId amount reasonText = some req →
        req.body.map Prod.fst = ["reason"] := by
  intro paymentId amount reasonText hne hpos
  have hcond : ¬(paymentId = "" ∨ amount ≤ 0) := by
    push_neg
    exact ⟨hne, hpos⟩
  constructor
  · unfold handleRefundPayment refundPayment
    simp [hcond]
  · intro req hreq
    unfold handleRefundPayment refundPayment at hreq
    simp [hcond] at hreq
    rw [← hreq]
    rfl

/-- Witness for C10 at a concrete input: payment id PAY7, amount 25, empty
reason text. -/
theorem refund_amount_nested_in_reason_witness :
    "PAY7" ≠ "" ∧ (0 : Int) < 25 ∧
    handleRefundPayment "PAY7" 25 "" =
      some { method := "POST", url := "/payments/PAY7/refund",
             body := [("reason", { amount := 25, reason := "Customer request" })] } := by
  refine ⟨by decide, by decide, ?_⟩
  have h := refund_amount_nested_in_reason "PAY7" 25 "" (by decide) (by decide)
  simpa [jsOrStr] using h.1

end KafkaEcommerce
